import Mathlib

/-!
Verification of the vertex-buffer / pixel-buffer subsystem of this glium
excerpt (src/vertex/buffer.rs, src/pixel_buffer.rs) against its
natural-language specification.

The Rust code is shallowly embedded: structs become Lean structures,
methods become functions, `Option` stays `Option`, a Rust panic
(assert!/unwrap) is modelled as `none` in an outer `Option`, and the
external collaborators (the raw `Buffer` allocation primitive, the
capability context) are modelled from the spec, as the buffer module is
not part of this excerpt.
-/

namespace Glium

/-- Modelled from the spec: the capability context exposes
`get_version() -> (major, minor)`; the `version` module is not part of
this excerpt.  Ordering is lexicographic on (major, minor). -/
structure Version where
  major : Nat
  minor : Nat
deriving DecidableEq

/-- Lexicographic strict order on versions, the meaning of
`get_version() < &Version(Api::Gl, 3, 3)` in the source. -/
def Version.lt (a b : Version) : Bool :=
  a.major < b.major || (a.major == b.major && a.minor < b.minor)

/-- Modelled from the spec: the capability context, read-only and
externally owned; exposes the driver version and the supported-extension
flags the source consults (`gl_arb_instanced_arrays`). -/
structure Context where
  version : Version
  gl_arb_instanced_arrays : Bool
deriving DecidableEq

/-- Modelled from the spec: the GPU-side usage hints (buffer flags)
passed to the allocator: one-shot/static (`BufferFlags::simple()`),
frequently-updated (`BufferFlags::dynamic()`), persistent mapping
(`BufferFlags::persistent()`). -/
inductive BufferFlags where
  | simple
  | dynamic
  | persistent
deriving DecidableEq

/-- Buffer-type tag (`BufferType` in the source). -/
inductive BufferType where
  | ArrayBuffer
  | PixelPackBuffer
deriving DecidableEq

/-- Source `BufferCreationError` from the buffer module (external to this
excerpt); the source matches on `PersistentMappingNotSupported`. -/
inductive BufferCreationError where
  | PersistentMappingNotSupported
  | OutOfMemory
deriving DecidableEq

/-- Modelled from the spec: the leaf GPU-memory allocation primitive
(`buffer::Buffer`), which owns a driver-side handle, element count,
element stride, and a reference to its context.  The buffer module is
external to this excerpt; only the observers the source calls
(`get_elements_count`, `get_elements_size`, `get_id`, `get_context`)
are modelled. -/
structure Buffer where
  id : Nat
  elements_count : Nat
  elements_size : Nat
  context : Context
deriving DecidableEq

def Buffer.get_elements_count (b : Buffer) : Nat := b.elements_count

def Buffer.get_elements_size (b : Buffer) : Nat := b.elements_size

def Buffer.get_id (b : Buffer) : Nat := b.id

def Buffer.get_context (b : Buffer) : Context := b.context

/-- An attribute-binding layout entry: (name, byte offset, attribute
type code).  `VertexFormat` in the source is a list of such entries. -/
abbrev VertexFormat : Type := List (String × Nat × Nat)

/-- The `Vertex` trait of the source, as explicit dictionary: a vertex
type knows how to build its attribute bindings
(`<T as Vertex>::build_bindings()`). -/
structure Vertex (T : Type) where
  build_bindings : VertexFormat

/-- Modelled from the spec: the facade hands out the driver-allocation
primitive `allocate(type, usage_hint, capacity) -> handle | Error` and
the capability context.  `Buffer::new(facade, &data, ty, flags)` is
modelled as `facade.alloc ty flags data.length`. -/
structure Facade where
  alloc : BufferType → BufferFlags → Nat → Except BufferCreationError Buffer
  context : Context

/-- Source call `Buffer::new(facade, &data, ty, flags)` (the buffer module
itself is external; see `Facade.alloc`). -/
def Buffer.new (facade : Facade) (dataLen : Nat) (ty : BufferType)
    (flags : BufferFlags) : Except BufferCreationError Buffer :=
  facade.alloc ty flags dataLen

/-- Source `VertexBufferAny`: type-erased vertex buffer (storage, bindings,
element stride; no compile-time element type). -/
structure VertexBufferAny where
  buffer : Buffer
  bindings : VertexFormat
  elements_size : Nat
deriving DecidableEq

/-- Source `VertexBufferAny::len`: number of elements in the buffer. -/
def VertexBufferAny.len (self : VertexBufferAny) : Nat :=
  self.buffer.get_elements_count

/-- Source `VertexBufferAny::get_elements_size`. -/
def VertexBufferAny.get_elements_size (self : VertexBufferAny) : Nat :=
  self.elements_size

/-- Source `VertexBufferAny::get_bindings`. -/
def VertexBufferAny.get_bindings (self : VertexBufferAny) : VertexFormat :=
  self.bindings

/-- Source method `GlObject::get_id` for `VertexBufferAny`. -/
def VertexBufferAny.get_id (self : VertexBufferAny) : Nat :=
  self.buffer.get_id

/-- Source `VertexBufferAnySlice`: a (buffer, offset, length) view over a
type-erased vertex buffer. -/
structure VertexBufferAnySlice where
  buffer : VertexBufferAny
  offset : Nat
  length : Nat
deriving DecidableEq

/-- Source `VertexBufferAny::slice`: the type-erased bounds check uses
NON-strict comparisons (`offset >= self.len() || offset + len >= self.len()`). -/
def VertexBufferAny.slice (self : VertexBufferAny) (offset len : Nat) :
    Option VertexBufferAnySlice :=
  if offset ≥ self.len ∨ offset + len ≥ self.len then
    none
  else
    some { buffer := self, offset := offset, length := len }

/-- Source `VertexBuffer<T>`: typed wrapper around `VertexBufferAny`; the type
parameter is phantom (compile-time only), exactly as in the source. -/
structure VertexBuffer (T : Type) where
  buffer : VertexBufferAny
deriving DecidableEq

/-- Source `VertexBuffer::len`. -/
def VertexBuffer.len {T : Type} (self : VertexBuffer T) : Nat :=
  self.buffer.len

/-- Source `VertexBuffer::get_elements_size`. -/
def VertexBuffer.get_elements_size {T : Type} (self : VertexBuffer T) : Nat :=
  self.buffer.elements_size

/-- Source `VertexBuffer::get_bindings`. -/
def VertexBuffer.get_bindings {T : Type} (self : VertexBuffer T) : VertexFormat :=
  self.buffer.bindings

/-- Source `VertexBuffer::into_vertex_buffer_any`: discards the type tag,
returning the inner `VertexBufferAny` unchanged. -/
def VertexBuffer.into_vertex_buffer_any {T : Type} (self : VertexBuffer T) :
    VertexBufferAny :=
  self.buffer

/-- Source `VertexBufferAny::into_vertex_buffer::<T>`: the unchecked (unsafe)
re-typing; wraps the erased buffer without validation. -/
def VertexBufferAny.into_vertex_buffer {T : Type} (self : VertexBufferAny) :
    VertexBuffer T :=
  { buffer := self }

/-- Source `VertexBufferSlice<T>`: a (buffer, offset, length) view over a typed
vertex buffer. -/
structure VertexBufferSlice (T : Type) where
  buffer : VertexBuffer T
  offset : Nat
  length : Nat
deriving DecidableEq

/-- Source `VertexBuffer::slice`: the typed bounds check uses STRICT
comparisons (`offset > self.len() || offset + len > self.len()`). -/
def VertexBuffer.slice {T : Type} (self : VertexBuffer T) (offset len : Nat) :
    Option (VertexBufferSlice T) :=
  if offset > self.len ∨ offset + len > self.len then
    none
  else
    some { buffer := self, offset := offset, length := len }

/-- An upload command issued to the raw buffer:
`self.buffer.upload(offset, data)`.  Capturing the whole `data` list
records that the upload neither truncates nor pads. -/
structure UploadCmd (T : Type) where
  offset : Nat
  data : List T
deriving DecidableEq

/-- Source `VertexBuffer::write`: `assert!(data.len() == self.len())` then
`upload(0, data)`.  The assert panic is modelled as `none`; a successful
call returns the upload command it issues. -/
def VertexBuffer.write {T : Type} (self : VertexBuffer T) (data : List T) :
    Option (UploadCmd T) :=
  if data.length = self.len then
    some { offset := 0, data := data }
  else
    none

/-- Source `VertexBufferSlice::write`: `assert!(data.len() == self.length)`
then `upload(self.offset, data)`.  The assert panic is modelled as
`none`. -/
def VertexBufferSlice.write {T : Type} (self : VertexBufferSlice T)
    (data : List T) : Option (UploadCmd T) :=
  if data.length = self.length then
    some { offset := self.offset, data := data }
  else
    none

/-- Source `PerInstance` (from the vertex module, external to this excerpt):
a marker wrapping a `VertexBufferAnySlice`, as constructed at
`PerInstance(VertexBufferAnySlice { .. })` in the source. -/
structure PerInstance where
  slice : VertexBufferAnySlice
deriving DecidableEq

/-- Source `VertexBuffer::per_instance_if_supported`: returns `none` when the
context version is below OpenGL 3.3 AND the instanced-arrays extension
is absent; otherwise a marker over the whole buffer (offset 0, full
length). -/
def VertexBuffer.per_instance_if_supported {T : Type} (self : VertexBuffer T) :
    Option PerInstance :=
  if Version.lt (self.buffer.buffer.get_context.version) ⟨3, 3⟩ = true ∧
      self.buffer.buffer.get_context.gl_arb_instanced_arrays = false then
    none
  else
    some { slice := { buffer := self.buffer, offset := 0, length := self.len } }

/-- Source `VertexBuffer::new`: derives bindings from `T`, allocates with
`BufferType::ArrayBuffer` and `BufferFlags::simple()`, unwraps (panic
modelled as `none`), stores bindings and the element stride reported by
the allocated buffer. -/
def VertexBuffer.new {T : Type} (facade : Facade) (V : Vertex T)
    (data : List T) : Option (VertexBuffer T) :=
  match Buffer.new facade data.length BufferType.ArrayBuffer BufferFlags.simple with
  | Except.error _ => none
  | Except.ok buffer =>
      some { buffer := { buffer := buffer,
                         bindings := V.build_bindings,
                         elements_size := buffer.get_elements_size } }

/-- Source `VertexBuffer::new_dynamic`: documented as creating a buffer with
better performance under frequent modification, but its body is
identical to `new` (it passes `BufferFlags::simple()` too). -/
def VertexBuffer.new_dynamic {T : Type} (facade : Facade) (V : Vertex T)
    (data : List T) : Option (VertexBuffer T) :=
  match Buffer.new facade data.length BufferType.ArrayBuffer BufferFlags.simple with
  | Except.error _ => none
  | Except.ok buffer =>
      some { buffer := { buffer := buffer,
                         bindings := V.build_bindings,
                         elements_size := buffer.get_elements_size } }

/-- Source `VertexBuffer::new_persistent_if_supported`: allocates with
`BufferFlags::persistent()`; `Err(PersistentMappingNotSupported)` maps
to a returned `None`, any other error is unwrapped (panic, modelled as
outer `none`), success wraps the buffer.  The outer `Option` is the
panic model, the inner one the Rust return value. -/
def VertexBuffer.new_persistent_if_supported {T : Type} (facade : Facade)
    (V : Vertex T) (data : List T) : Option (Option (VertexBuffer T)) :=
  match Buffer.new facade data.length BufferType.ArrayBuffer BufferFlags.persistent with
  | Except.error BufferCreationError.PersistentMappingNotSupported => some none
  | Except.error _ => none
  | Except.ok buffer =>
      some (some { buffer := { buffer := buffer,
                               bindings := V.build_bindings,
                               elements_size := buffer.get_elements_size } })

/-- Source `ClientFormat` (from the texture module, external): a client-side
pixel-format code, kept abstract as a numeric tag. -/
abbrev ClientFormat : Type := Nat

/-- Source `PixelBuffer<T>` from src/pixel_buffer.rs.  The struct declaration
in the excerpt lists `buffer`, `dimensions` and the phantom marker, but
both `new_empty` (which initializes `format: None`) and `store_infos`
(which assigns `b.format`) use a `format` field, so the coherent type
carries both metadata fields. -/
structure PixelBuffer (T : Type) where
  buffer : Buffer
  dimensions : Option (Nat × Nat)
  format : Option ClientFormat
deriving DecidableEq

/-- Source `PixelBuffer::len`: number of pixels. -/
def PixelBuffer.len {T : Type} (self : PixelBuffer T) : Nat :=
  self.buffer.get_elements_count

/-- Source method `GlObject::get_id` for `PixelBuffer`. -/
def PixelBuffer.get_id {T : Type} (self : PixelBuffer T) : Nat :=
  self.buffer.get_id

/-- Source `store_infos` (src/pixel_buffer.rs): the privileged metadata-attach
call; sets both metadata fields, touches nothing else. -/
def store_infos {T : Type} (b : PixelBuffer T) (dimensions : Nat × Nat)
    (format : ClientFormat) : PixelBuffer T :=
  { b with dimensions := some dimensions, format := some format }

/-! ## Concrete sample values, used by the witness theorems -/

/-- A context reporting OpenGL 3.3 and no instanced-arrays extension. -/
def ctx0 : Context := { version := ⟨3, 3⟩, gl_arb_instanced_arrays := false }

/-- A context reporting OpenGL 3.0 and no instanced-arrays extension. -/
def ctxOld : Context := { version := ⟨3, 0⟩, gl_arb_instanced_arrays := false }

/-- A raw buffer of 2 elements, 20-byte stride, under `ctx0`. -/
def buf2 : Buffer := { id := 7, elements_count := 2, elements_size := 20, context := ctx0 }

/-- A type-erased vertex buffer over `buf2`. -/
def any2 : VertexBufferAny := { buffer := buf2, bindings := [], elements_size := 20 }

/-- A typed vertex buffer over `buf2`. -/
def vb2 : VertexBuffer PUnit := { buffer := any2 }

/-- A typed vertex buffer under the pre-3.3 context `ctxOld`. -/
def vbOld : VertexBuffer PUnit :=
  { buffer := { buffer := { id := 8, elements_count := 2, elements_size := 20,
                            context := ctxOld },
                bindings := [], elements_size := 20 } }

/-- A slice of `vb2` covering the whole buffer. -/
def sl2 : VertexBufferSlice PUnit := { buffer := vb2, offset := 0, length := 2 }

/-- A trivial vertex dictionary with empty bindings. -/
def vtx0 : Vertex PUnit := { build_bindings := [] }

/-- A facade whose allocator rejects persistent-mapping requests with
`PersistentMappingNotSupported` and grants everything else. -/
def noPersistFacade : Facade :=
  { alloc := fun _ flags n =>
      match flags with
      | BufferFlags.persistent =>
          Except.error BufferCreationError.PersistentMappingNotSupported
      | _ => Except.ok { id := 1, elements_count := n, elements_size := 20,
                         context := ctx0 },
    context := ctx0 }

/-- A facade whose allocator always succeeds. -/
def okFacade : Facade :=
  { alloc := fun _ _ n =>
      Except.ok { id := 1, elements_count := n, elements_size := 20,
                  context := ctx0 },
    context := ctx0 }

/-- Numeric code of a usage hint, used by `recordingFacade` to expose
which flags a creation function requested. -/
def flagCode : BufferFlags → Nat
  | BufferFlags.simple => 0
  | BufferFlags.dynamic => 1
  | BufferFlags.persistent => 2

/-- A facade whose allocator records the requested usage hint in the
returned driver handle. -/
def recordingFacade : Facade :=
  { alloc := fun _ flags n =>
      Except.ok { id := flagCode flags, elements_count := n,
                  elements_size := 1, context := ctx0 },
    context := ctx0 }

/-- The per-instance marker `per_instance_if_supported` produces on `vb2`. -/
def piMarker : PerInstance :=
  { slice := { buffer := vb2.buffer, offset := 0, length := vb2.len } }

/-! ## Claim theorems -/

/-- C1: the type-erased `VertexBufferAny::slice` returns `none` exactly
when `offset >= len` or `offset + len >= len` (non-strict check), so a
slice ending exactly at the end of the buffer (`offset + n = len`) is
rejected by the type-erased accessor but accepted by the typed
`VertexBuffer::slice` (strict check). -/
theorem spec_C1 (b : VertexBufferAny) (tb : VertexBuffer PUnit) (off n : Nat) :
    (b.slice off n = none ↔ (off ≥ b.len ∨ off + n ≥ b.len))
    ∧ (off + n = b.len → b.slice off n = none)
    ∧ (off + n = tb.len → (tb.slice off n).isSome = true) := by
  refine ⟨?_, ?_, ?_⟩
  · unfold VertexBufferAny.slice
    split <;> simp_all
  · intro h
    unfold VertexBufferAny.slice
    rw [if_pos (by omega)]
  · intro h
    unfold VertexBuffer.slice
    rw [if_neg (by omega)]
    rfl

/-- Witness for C1 on a 2-element buffer: the end slice (1, 1) is
rejected type-erased, accepted typed. -/
theorem spec_C1_witness :
    any2.slice 1 1 = none ∧ (vb2.slice 1 1).isSome = true :=
  ⟨(spec_C1 any2 vb2 1 1).2.1 (by decide),
   (spec_C1 any2 vb2 1 1).2.2 (by decide)⟩

/-- C2: typed `VertexBuffer::slice` returns a slice with exactly the
requested offset and length whenever `offset + length <= len`, and
`none` (no fatal failure) whenever `offset + length > len`. -/
theorem spec_C2 {T : Type} (b : VertexBuffer T) (off n : Nat) :
    (off + n ≤ b.len → b.slice off n = some ⟨b, off, n⟩)
    ∧ (off + n > b.len → b.slice off n = none) := by
  constructor
  · intro h
    unfold VertexBuffer.slice
    rw [if_neg (by omega)]
  · intro h
    unfold VertexBuffer.slice
    rw [if_pos (Or.inr h)]

/-- Witness for C2 on a 2-element buffer: (0, 2) is in range and yields
that exact view, (1, 2) is out of range and yields `none`. -/
theorem spec_C2_witness :
    vb2.slice 0 2 = some ⟨vb2, 0, 2⟩ ∧ vb2.slice 1 2 = none :=
  ⟨(spec_C2 vb2 0 2).1 (by decide), (spec_C2 vb2 1 2).2 (by decide)⟩

/-- C3: degrading a typed buffer with `into_vertex_buffer_any` and
reinterpreting with the unchecked `into_vertex_buffer::<T>` preserves
`len`, `get_bindings` and `get_elements_size` exactly. -/
theorem spec_C3 {T : Type} (b : VertexBuffer T) :
    ((b.into_vertex_buffer_any).into_vertex_buffer : VertexBuffer T).len = b.len
    ∧ ((b.into_vertex_buffer_any).into_vertex_buffer : VertexBuffer T).get_bindings
        = b.get_bindings
    ∧ ((b.into_vertex_buffer_any).into_vertex_buffer : VertexBuffer T).get_elements_size
        = b.get_elements_size :=
  ⟨rfl, rfl, rfl⟩

/-- C4: `VertexBuffer::write` panics (modelled `none`) exactly when the
data length differs from the buffer length, and otherwise uploads the
whole data at offset 0; `VertexBufferSlice::write` likewise against the
slice length, uploading at the slice offset. -/
theorem spec_C4 {T : Type} (b : VertexBuffer T) (s : VertexBufferSlice T)
    (data : List T) :
    (b.write data = none ↔ data.length ≠ b.len)
    ∧ (data.length = b.len → b.write data = some ⟨0, data⟩)
    ∧ (s.write data = none ↔ data.length ≠ s.length)
    ∧ (data.length = s.length → s.write data = some ⟨s.offset, data⟩) := by
  refine ⟨?_, ?_, ?_, ?_⟩
  · unfold VertexBuffer.write
    split <;> simp_all
  · intro h
    unfold VertexBuffer.write
    rw [if_pos h]
  · unfold VertexBufferSlice.write
    split <;> simp_all
  · intro h
    unfold VertexBufferSlice.write
    rw [if_pos h]

/-- Witness for C4: writing 3 elements to the 2-element buffer `vb2`
panics; writing 2 elements uploads them all at offset 0. -/
theorem spec_C4_witness :
    vb2.write [PUnit.unit, PUnit.unit, PUnit.unit] = none
    ∧ vb2.write [PUnit.unit, PUnit.unit] = some ⟨0, [PUnit.unit, PUnit.unit]⟩ :=
  ⟨(spec_C4 vb2 sl2 [PUnit.unit, PUnit.unit, PUnit.unit]).1.mpr (by decide),
   (spec_C4 vb2 sl2 [PUnit.unit, PUnit.unit]).2.1 (by decide)⟩

/-- C5: `new_persistent_if_supported` returns `None` (not a panic) when
the allocator reports `PersistentMappingNotSupported` for the persistent
request, and on a successful allocation returns the buffer wrapping the
allocated storage with the bindings derived from `T`. -/
theorem spec_C5 {T : Type} (facade : Facade) (V : Vertex T) (data : List T) :
    (facade.alloc BufferType.ArrayBuffer BufferFlags.persistent data.length
        = Except.error BufferCreationError.PersistentMappingNotSupported →
      VertexBuffer.new_persistent_if_supported facade V data = some none)
    ∧ (∀ buf,
        facade.alloc BufferType.ArrayBuffer BufferFlags.persistent data.length
          = Except.ok buf →
        VertexBuffer.new_persistent_if_supported facade V data
          = some (some { buffer := { buffer := buf,
                                     bindings := V.build_bindings,
                                     elements_size := buf.get_elements_size } })) := by
  constructor
  · intro h
    unfold VertexBuffer.new_persistent_if_supported Buffer.new
    rw [h]
  · intro buf h
    unfold VertexBuffer.new_persistent_if_supported Buffer.new
    rw [h]

/-- Witness for C5: under `noPersistFacade` the persistent constructor
returns `None`; under `okFacade` it returns the wrapped buffer. -/
theorem spec_C5_witness :
    VertexBuffer.new_persistent_if_supported noPersistFacade vtx0 ([] : List PUnit)
      = some none
    ∧ VertexBuffer.new_persistent_if_supported okFacade vtx0 ([] : List PUnit)
      = some (some { buffer := { buffer := { id := 1, elements_count := 0,
                                             elements_size := 20, context := ctx0 },
                                 bindings := [], elements_size := 20 } }) :=
  ⟨(spec_C5 noPersistFacade vtx0 []).1 rfl,
   (spec_C5 okFacade vtx0 []).2 _ rfl⟩

/-- C6: `per_instance_if_supported` returns `none` exactly when the
context version is below OpenGL 3.3 and the instanced-arrays extension
is not reported; in every other case it returns a present marker. -/
theorem spec_C6 {T : Type} (b : VertexBuffer T) :
    (b.per_instance_if_supported = none ↔
      (Version.lt b.buffer.buffer.get_context.version ⟨3, 3⟩ = true ∧
        b.buffer.buffer.get_context.gl_arb_instanced_arrays = false))
    ∧ (¬ (Version.lt b.buffer.buffer.get_context.version ⟨3, 3⟩ = true ∧
          b.buffer.buffer.get_context.gl_arb_instanced_arrays = false) →
        (b.per_instance_if_supported).isSome = true) := by
  constructor
  · unfold VertexBuffer.per_instance_if_supported
    split <;> simp_all
  · intro h
    unfold VertexBuffer.per_instance_if_supported
    rw [if_neg h]
    rfl

/-- Witness for C6: at exactly OpenGL 3.3 (`vb2`) the marker is present;
at OpenGL 3.0 without the extension (`vbOld`) it is absent. -/
theorem spec_C6_witness :
    (vb2.per_instance_if_supported).isSome = true
    ∧ vbOld.per_instance_if_supported = none :=
  ⟨(spec_C6 vb2).2 (by decide), (spec_C6 vbOld).1.mpr (by decide)⟩

/-- C7 (code evaluated at the failing input): both `new` and
`new_dynamic` request the allocation with `BufferFlags::simple()` — the
recording facade observes usage-hint code 0 (= simple) from both — and
the two functions are definitionally identical for every facade and
data, contradicting the claim that they pass distinct usage hints. -/
theorem spec_C7 :
    (VertexBuffer.new recordingFacade vtx0 [PUnit.unit]).map
        (fun b => b.buffer.buffer.get_id) = some (flagCode BufferFlags.simple)
    ∧ (VertexBuffer.new_dynamic recordingFacade vtx0 [PUnit.unit]).map
        (fun b => b.buffer.buffer.get_id) = some (flagCode BufferFlags.simple)
    ∧ ∀ {T : Type} (facade : Facade) (V : Vertex T) (data : List T),
        VertexBuffer.new facade V data = VertexBuffer.new_dynamic facade V data :=
  ⟨rfl, rfl, fun _ _ _ => rfl⟩

/-- C8: `store_infos` sets the dimensions metadata to `some dimensions`
and the format metadata to `some format`, leaving the underlying
storage — hence `len` and `get_id` — unchanged. -/
theorem spec_C8 {T : Type} (b : PixelBuffer T) (d : Nat × Nat)
    (f : ClientFormat) :
    (store_infos b d f).dimensions = some d
    ∧ (store_infos b d f).format = some f
    ∧ (store_infos b d f).buffer = b.buffer
    ∧ (store_infos b d f).len = b.len
    ∧ (store_infos b d f).get_id = b.get_id :=
  ⟨rfl, rfl, rfl, rfl, rfl⟩

/-- C9: the zero-length end slice is accepted by the typed accessor —
`b.slice b.len 0` is present, and `b.slice off 0` is present for every
`off ≤ b.len` — while the same zero-length end-of-buffer call on the
type-erased buffer returns `none`. -/
theorem spec_C9 {T : Type} (b : VertexBuffer T) (a : VertexBufferAny)
    (off : Nat) :
    (b.slice b.len 0).isSome = true
    ∧ (off ≤ b.len → (b.slice off 0).isSome = true)
    ∧ a.slice a.len 0 = none := by
  refine ⟨?_, ?_, ?_⟩
  · unfold VertexBuffer.slice
    rw [if_neg (by omega)]
    rfl
  · intro h
    unfold VertexBuffer.slice
    rw [if_neg (by omega)]
    rfl
  · unfold VertexBufferAny.slice
    rw [if_pos (by omega)]

/-- Witness for C9 on the 2-element buffers: typed `slice 1 0` is
present (and so is `slice 2 0`), type-erased `slice 2 0` is absent. -/
theorem spec_C9_witness :
    (vb2.slice 1 0).isSome = true ∧ any2.slice 2 0 = none :=
  ⟨(spec_C9 vb2 any2 1).2.1 (by decide),
   (spec_C9 vb2 any2 1).2.2⟩

/-- C10: whenever `per_instance_if_supported` returns a marker, the
marker's slice covers the entire buffer: its buffer is the erased
buffer, its offset is 0 and its length is `len`. -/
theorem spec_C10 {T : Type} (b : VertexBuffer T) (p : PerInstance) :
    b.per_instance_if_supported = some p →
      p.slice.buffer = b.buffer ∧ p.slice.offset = 0 ∧ p.slice.length = b.len := by
  unfold VertexBuffer.per_instance_if_supported
  split
  · intro h
    exact Option.noConfusion h
  · intro h
    injection h with h
    subst h
    exact ⟨rfl, rfl, rfl⟩

/-- Witness for C10: on `vb2` the marker is `piMarker`, whose slice is
(whole buffer, 0, 2). -/
theorem spec_C10_witness :
    piMarker.slice.buffer = vb2.buffer ∧ piMarker.slice.offset = 0
    ∧ piMarker.slice.length = vb2.len :=
  spec_C10 vb2 piMarker (by decide)

end Glium
